import Mathlib

/-!
Verification of the Levitate audio-to-image pipeline (`levitate.py`, `server.py`).

The development shallowly embeds the decision logic of the repository:
the energy/mood classifier and result dict of `analyze_audio`, the prompt
template of `build_prompt`, the validation logic of `upload_mp3`, and the
staged control flow of `generate_visual`.  Python floats are modelled as
`FVal` (a rational or NaN, with IEEE comparison semantics: any strict
comparison involving NaN is false); Python dicts that the code builds with
literal keys are modelled as association lists; code that can raise is
modelled with `Option`/`Except`.

Rational constants inside executable definitions are written with `mkRat`
(definitionally a normalized rational), and rounding/rendering work on the
numerator and denominator directly, so that every definition evaluates inside
the kernel on concrete inputs.
-/

set_option maxRecDepth 100000

/-- A Python float value: either NaN or a finite value modelled as a rational. -/
inductive FVal where
  | nan : FVal
  | fin : ℚ → FVal
deriving DecidableEq

/-- Strict `<` on floats: false whenever either side is NaN (IEEE semantics). -/
def FVal.lt : FVal → FVal → Bool
  | .fin a, .fin b => decide (a < b)
  | _, _ => false

/-- Strict `>` on floats, defined as the flipped `<` (IEEE semantics). -/
def FVal.gt (a b : FVal) : Bool := FVal.lt b a

/-- Energy classification of `analyze_audio` (levitate.py lines 57-62):
`low` if `rms < 0.03 and percussive_energy < harmonic_energy`,
else `medium` if `rms < 0.06`, else `high`. -/
def classifyEnergy (rms percussive_energy harmonic_energy : FVal) : String :=
  if FVal.lt rms (.fin (mkRat 3 100)) && FVal.lt percussive_energy harmonic_energy then "low"
  else if FVal.lt rms (.fin (mkRat 6 100)) then "medium"
  else "high"

/-- Mood classification of `analyze_audio` (levitate.py lines 64-71):
`emotional / warm` if `harmonic_energy > percussive_energy and centroid < 2000`,
else `tense / aggressive` if `contrast > 25 and zcr > 0.1`,
else `bright / uplifting` if `centroid > 3000`, else `dark / cinematic`. -/
def classifyMood (harmonic_energy percussive_energy centroid contrast zcr : FVal) : String :=
  if FVal.gt harmonic_energy percussive_energy && FVal.lt centroid (.fin 2000) then
    "emotional / warm"
  else if FVal.gt contrast (.fin 25) && FVal.gt zcr (.fin (mkRat 1 10)) then
    "tense / aggressive"
  else if FVal.gt centroid (.fin 3000) then
    "bright / uplifting"
  else
    "dark / cinematic"

/-- The scalar descriptors computed by the librosa calls at the top of
`analyze_audio` (levitate.py lines 44-55), before classification. -/
structure RawFeatures where
  tempo : FVal
  rms : FVal
  harmonic_energy : FVal
  percussive_energy : FVal
  centroid : FVal
  contrast : FVal
  zcr : FVal
deriving DecidableEq

/-- Round the fraction `n / d` to the nearest integer, ties to even (the
rounding used by Python's `round`), computed on the integer parts: with
`f = ⌊n / d⌋` the remainder is `(n - f * d) / d`, which is compared to `1/2`
by comparing `2 * (n - f * d)` with `d`. -/
def rheScaled (n : ℤ) (d : ℕ) : ℤ :=
  let f : ℤ := Int.fdiv n d
  let t : ℤ := 2 * (n - f * d)
  if t < (d : ℤ) then f
  else if (d : ℤ) < t then f + 1
  else if f % 2 = 0 then f else f + 1

/-- `round(x, 1)` on a float: NaN stays NaN, a finite value `q` is rounded
to one decimal place (ties to even), i.e. to `(round of 10 * q) / 10`. -/
def round1 : FVal → FVal
  | .nan => .nan
  | .fin q => .fin (mkRat (rheScaled (10 * q.num) q.den) 10)

/-- A Python value stored in the features dict: a float or a string. -/
inductive PyVal where
  | num : FVal → PyVal
  | str : String → PyVal
deriving DecidableEq

/-- The dict returned by `analyze_audio` (levitate.py lines 73-79):
keys `tempo` (rounded to 1 decimal), `energy`, `mood`, `rms`, `centroid`. -/
def analyze_audio (f : RawFeatures) : List (String × PyVal) :=
  [ ("tempo", .num (round1 f.tempo)),
    ("energy", .str (classifyEnergy f.rms f.percussive_energy f.harmonic_energy)),
    ("mood", .str (classifyMood f.harmonic_energy f.percussive_energy f.centroid
      f.contrast f.zcr)),
    ("rms", .num f.rms),
    ("centroid", .num f.centroid) ]

/-- The spec's abstract energy labels. -/
inductive EnergyLabel where
  | low | medium | high
deriving DecidableEq

/-- The spec's abstract mood labels. -/
inductive MoodLabel where
  | emotionalWarm | tenseAggressive | brightUplifting | darkCinematic
deriving DecidableEq

/-- Modelled from the spec: energy rules of section 4.2, evaluated in priority
order with first match winning. -/
def specEnergy (rms perc harm : ℚ) : EnergyLabel :=
  if rms < 3/100 ∧ perc < harm then .low
  else if rms < 6/100 then .medium
  else .high

/-- Modelled from the spec: mood rules of section 4.2, evaluated in priority
order with first match winning. -/
def specMood (harm perc centroid contrast zcr : ℚ) : MoodLabel :=
  if harm > perc ∧ centroid < 2000 then .emotionalWarm
  else if contrast > 25 ∧ zcr > 1/10 then .tenseAggressive
  else if centroid > 3000 then .brightUplifting
  else .darkCinematic

/-- The code's string for each abstract energy label. -/
def energyLabelStr : EnergyLabel → String
  | .low => "low"
  | .medium => "medium"
  | .high => "high"

/-- The code's string for each abstract mood label. -/
def moodLabelStr : MoodLabel → String
  | .emotionalWarm => "emotional / warm"
  | .tenseAggressive => "tense / aggressive"
  | .brightUplifting => "bright / uplifting"
  | .darkCinematic => "dark / cinematic"

/-- The three energy label strings the classifier can produce. -/
def energyLabels : List String := ["low", "medium", "high"]

/-- The four mood label strings the classifier can produce. -/
def moodLabels : List String :=
  ["emotional / warm", "tense / aggressive", "bright / uplifting", "dark / cinematic"]

theorem classifyEnergy_mem (r p h : FVal) : classifyEnergy r p h ∈ energyLabels := by
  unfold classifyEnergy energyLabels
  split_ifs <;> simp

theorem classifyMood_mem (h p c ct z : FVal) : classifyMood h p c ct z ∈ moodLabels := by
  unfold classifyMood moodLabels
  split_ifs <;> simp

/-- C1: on every finite feature vector the classifier agrees with the spec's
ordered first-match rules (energy: low / medium / high by the 0.03 and 0.06
thresholds; mood: emotional/warm, tense/aggressive, bright/uplifting,
dark/cinematic by the 2000, 25, 0.1 and 3000 thresholds), and it always
produces exactly one energy label and one mood label. -/
theorem classify_matches_spec (rms perc harm centroid contrast zcr : ℚ) :
    classifyEnergy (.fin rms) (.fin perc) (.fin harm)
      = energyLabelStr (specEnergy rms perc harm)
    ∧ classifyMood (.fin harm) (.fin perc) (.fin centroid) (.fin contrast) (.fin zcr)
      = moodLabelStr (specMood harm perc centroid contrast zcr)
    ∧ classifyEnergy (.fin rms) (.fin perc) (.fin harm) ∈ energyLabels
    ∧ classifyMood (.fin harm) (.fin perc) (.fin centroid) (.fin contrast) (.fin zcr)
      ∈ moodLabels := by
  have e3 : (mkRat 3 100 : ℚ) = 3/100 := by rw [Rat.mkRat_eq_div]; norm_num
  have e6 : (mkRat 6 100 : ℚ) = 6/100 := by rw [Rat.mkRat_eq_div]; norm_num
  have e10 : (mkRat 1 10 : ℚ) = 1/10 := by rw [Rat.mkRat_eq_div]; norm_num
  refine ⟨?_, ?_, classifyEnergy_mem _ _ _, classifyMood_mem _ _ _ _ _⟩
  · unfold classifyEnergy specEnergy energyLabelStr FVal.lt
    rw [e3, e6]
    by_cases h1 : rms < 3/100 <;> by_cases h2 : perc < harm <;>
      by_cases h3 : rms < 6/100 <;> simp [h1, h2, h3]
  · unfold classifyMood specMood moodLabelStr FVal.gt FVal.lt
    rw [e10]
    by_cases h1 : perc < harm <;> by_cases h2 : centroid < 2000 <;>
      by_cases h3 : 25 < contrast <;> by_cases h4 : (10:ℚ)⁻¹ < zcr <;>
      by_cases h5 : 3000 < centroid <;>
      simp [h1, h2, h3, h4, h5, gt_iff_lt, one_div]

/-- The lighting dict of `build_prompt` (levitate.py lines 83-87), accessed with
`[...]`: `none` models the `KeyError` Python raises for an unknown energy. -/
def lightingTable (energy : String) : Option String :=
  if energy = "low" then some "soft ambient light"
  else if energy = "medium" then some "cinematic balanced lighting"
  else if energy = "high" then some "dramatic volumetric lighting"
  else none

/-- The mood dict of `build_prompt` (levitate.py lines 89-93), accessed with
`.get(..., "cinematic lighting")`: total, with the fallback default. -/
def moodStyleTable (mood : String) : String :=
  if mood = "emotional / warm" then "warm sunset tones, soft glow, peaceful atmosphere"
  else if mood = "dark / cinematic" then "moody shadows, deep contrast"
  else if mood = "bright / uplifting" then "vibrant colors, hopeful sky"
  else "cinematic lighting"

/-- The character for a decimal digit. -/
def digitChar (n : ℕ) : Char := Char.ofNat (48 + n % 10)

/-- Big-endian decimal digits of `n`, with enough fuel to terminate. -/
def natChars : ℕ → ℕ → List Char
  | 0, _ => []
  | fuel + 1, n => if n = 0 then [] else natChars fuel (n / 10) ++ [digitChar (n % 10)]

/-- Decimal rendering of a natural number. -/
def natStr (n : ℕ) : String :=
  if n = 0 then "0" else ⟨natChars n n⟩

/-- Python's `str` on the float stored under `tempo`: NaN prints `nan`; a
finite value (in the pipeline always non-negative and rounded to one decimal)
prints with exactly one digit after the decimal point. -/
def formatTempo : FVal → String
  | .nan => "nan"
  | .fin q =>
      (if ⌊q⌋ < 0 then "-" ++ natStr ⌊q⌋.natAbs else natStr ⌊q⌋.natAbs)
        ++ "." ++ natStr (Int.fdiv (10 * q.num) q.den - 10 * ⌊q⌋).toNat

/-- Fixed template text of `build_prompt` before the mood slot. -/
def promptSegA0 : String := "GAME CONCEPT ART of a vast open fantasy landscape.\nAtmosphere: "

/-- Fixed template text between the mood slot and the tempo slot. -/
def promptSegA1 : String := ".\nMotion synced with rhythm at "

/-- Fixed template text between the tempo slot and the lighting slot. -/
def promptSegA2 : String := " BPM.\nLighting: "

/-- Fixed template text after the lighting slot. -/
def promptSegA3 : String :=
  ".\nUnreal Engine 5 style, AAA environment concept art.\nCinematic wide shot, ultra detailed, no text, no watermark."

/-- The stripped f-string returned by `build_prompt` (levitate.py lines 95-102). -/
def promptText (mood_style tempoStr lighting : String) : String :=
  promptSegA0 ++ mood_style ++ promptSegA1 ++ tempoStr ++ promptSegA2 ++ lighting ++ promptSegA3

/-- `build_prompt` (levitate.py lines 82-102): reads `energy`, `mood` and
`tempo` from the features dict; `none` models the `KeyError` raised when the
energy is not one of the three keys of the lighting dict (or a key is absent). -/
def build_prompt (features : List (String × PyVal)) : Option String :=
  match features.lookup "energy", features.lookup "mood", features.lookup "tempo" with
  | some (.str energy), some (.str mood), some (.num tempo) =>
      match lightingTable energy with
      | some lighting => some (promptText (moodStyleTable mood) (formatTempo tempo) lighting)
      | none => none
  | _, _, _ => none

/-- A features dict of the shape `analyze_audio` returns, with the label and
tempo slots as parameters (the input shape `build_prompt` consumes). -/
def labelsDict (energy mood : String) (tempo rms centroid : FVal) : List (String × PyVal) :=
  [ ("tempo", .num tempo), ("energy", .str energy), ("mood", .str mood),
    ("rms", .num rms), ("centroid", .num centroid) ]

/-- Substring test: `pat` occurs contiguously in `s` (Python's `in`). -/
def containsStr (s pat : String) : Bool := decide (pat.data <:+: s.data)

/-- C3: every classification threshold is strict: at `rms = 0.03` (with
`percussiveEnergy < harmonicEnergy`) rule 1 fails and rule 2 yields `medium`;
at `rms = 0.06` rule 2 fails and the result is `high`; at `centroid = 2000`
(with `harmonicEnergy > percussiveEnergy`) mood rule 1 fails; at
`contrast = 25` and at `zcr = 0.1` mood rule 2 fails; at `centroid = 3000`
mood rule 3 fails. -/
theorem boundary_thresholds_strict :
    (∀ p h : ℚ, p < h → classifyEnergy (.fin (mkRat 3 100)) (.fin p) (.fin h) = "medium")
    ∧ (∀ p h : ℚ, classifyEnergy (.fin (mkRat 6 100)) (.fin p) (.fin h) = "high")
    ∧ (∀ h p ct z : ℚ, p < h →
        classifyMood (.fin h) (.fin p) (.fin 2000) (.fin ct) (.fin z) ≠ "emotional / warm")
    ∧ (∀ h p c z : ℚ,
        classifyMood (.fin h) (.fin p) (.fin c) (.fin 25) (.fin z) ≠ "tense / aggressive")
    ∧ (∀ h p c ct : ℚ,
        classifyMood (.fin h) (.fin p) (.fin c) (.fin ct) (.fin (mkRat 1 10)) ≠ "tense / aggressive")
    ∧ (∀ h p ct z : ℚ,
        classifyMood (.fin h) (.fin p) (.fin 3000) (.fin ct) (.fin z) ≠ "bright / uplifting") := by
  refine ⟨?_, ?_, ?_, ?_, ?_, ?_⟩
  · intro p h hp
    simp [classifyEnergy, FVal.lt, hp, Rat.mkRat_eq_div]
    norm_num
  · intro p h
    simp [classifyEnergy, FVal.lt, Rat.mkRat_eq_div]
    norm_num
  · intro h p ct z _
    simp only [classifyMood, FVal.gt, FVal.lt, Rat.mkRat_eq_div]
    norm_num
    split_ifs <;> simp
  · intro h p c z
    simp only [classifyMood, FVal.gt, FVal.lt, Rat.mkRat_eq_div]
    norm_num
    split_ifs <;> simp
  · intro h p c ct
    simp only [classifyMood, FVal.gt, FVal.lt, Rat.mkRat_eq_div]
    norm_num
    split_ifs <;> simp
  · intro h p ct z
    simp only [classifyMood, FVal.gt, FVal.lt, Rat.mkRat_eq_div]
    norm_num
    split_ifs <;> simp

/-- C3 witness: the boundary facts instantiated at concrete feature values. -/
theorem boundary_thresholds_strict_witness :
    ((0:ℚ) < 1 ∧ classifyEnergy (.fin (mkRat 3 100)) (.fin 0) (.fin 1) = "medium")
    ∧ ((0:ℚ) < 1 ∧
        classifyMood (.fin 1) (.fin 0) (.fin 2000) (.fin 0) (.fin 0) ≠ "emotional / warm") :=
  ⟨⟨by norm_num, boundary_thresholds_strict.1 0 1 (by norm_num)⟩,
   ⟨by norm_num, boundary_thresholds_strict.2.2.1 1 0 0 0 (by norm_num)⟩⟩

/-- The all-NaN feature vector. -/
def rawAllNaN : RawFeatures :=
  ⟨.nan, .nan, .nan, .nan, .nan, .nan, .nan⟩

/-- C10: the classifier is total and never raises on NaN features — every
strict comparison involving NaN is false, so a NaN `rms` always yields energy
`high`, an all-NaN feature vector yields mood `dark / cinematic`, and
`analyze_audio` still returns a fully formed dict on all-NaN input. -/
theorem classify_nan_defaults :
    (∀ p h : FVal, classifyEnergy .nan p h = "high")
    ∧ classifyMood .nan .nan .nan .nan .nan = "dark / cinematic"
    ∧ (analyze_audio rawAllNaN).lookup "energy" = some (.str "high")
    ∧ (analyze_audio rawAllNaN).lookup "mood" = some (.str "dark / cinematic")
    ∧ (analyze_audio rawAllNaN).lookup "tempo" = some (.num .nan) := by
  refine ⟨?_, by decide, by decide, by decide, by decide⟩
  intro p h
  simp [classifyEnergy, FVal.lt]

/-- Characters that can appear in a rendered finite tempo number. -/
def tempoCharB (c : Char) : Bool := c.isDigit || c == '.' || c == '-'

theorem digitChar_tempo (m : ℕ) : tempoCharB (digitChar m) = true := by
  unfold digitChar tempoCharB
  have h : m % 10 < 10 := Nat.mod_lt _ (by norm_num)
  set k := m % 10 with hk
  interval_cases k <;> decide

theorem natChars_tempo (fuel n : ℕ) : ∀ c ∈ natChars fuel n, tempoCharB c = true := by
  induction fuel generalizing n with
  | zero => intro c hc; simp [natChars] at hc
  | succ fuel ih =>
    intro c hc
    unfold natChars at hc
    split at hc
    · simp at hc
    · rcases List.mem_append.mp hc with h | h
      · exact ih _ c h
      · rw [List.mem_singleton.mp h]; exact digitChar_tempo _

theorem natStr_tempo (n : ℕ) : ∀ c ∈ (natStr n).data, tempoCharB c = true := by
  intro c hc
  unfold natStr at hc
  split at hc
  · rcases List.mem_singleton.mp hc with rfl; decide
  · exact natChars_tempo n n c hc

theorem formatTempo_tempo (q : ℚ) : ∀ c ∈ (formatTempo (.fin q)).data, tempoCharB c = true := by
  intro c hc
  unfold formatTempo at hc
  rw [String.data_append, String.data_append] at hc
  rcases List.mem_append.mp hc with h | h
  · rcases List.mem_append.mp h with h' | h'
    · split at h'
      · rw [String.data_append] at h'
        rcases List.mem_append.mp h' with h'' | h''
        · rcases List.mem_singleton.mp h'' with rfl; decide
        · exact natStr_tempo _ c h''
      · exact natStr_tempo _ c h'
    · rcases List.mem_singleton.mp h' with rfl; decide
  · exact natStr_tempo _ c h

theorem formatTempo_ne (q : ℚ) : (formatTempo (.fin q)).data ≠ [] := by
  unfold formatTempo
  rw [String.data_append, String.data_append]
  intro h
  rcases List.append_eq_nil.mp h with ⟨h1, h2⟩
  rcases List.append_eq_nil.mp h1 with ⟨h3, h4⟩
  exact absurd h4 (by decide)

/-- Splitting a prefix across an append: it lies inside the left part, or
it is the left part followed by a prefix of the right part. -/
theorem pre_append_cases {α : Type} {X A B : List α} (h : X <+: A ++ B) :
    X <+: A ∨ ∃ Y, X = A ++ Y ∧ Y <+: B := by
  induction A generalizing X with
  | nil => exact Or.inr ⟨X, by simp, by simpa using h⟩
  | cons a A ih =>
    cases X with
    | nil => exact Or.inl ⟨a :: A, rfl⟩
    | cons x X =>
      rw [List.cons_append, List.cons_prefix_cons] at h
      obtain ⟨rfl, h⟩ := h
      rcases ih h with h' | ⟨Y, rfl, hY⟩
      · exact Or.inl (List.cons_prefix_cons.mpr ⟨rfl, h'⟩)
      · exact Or.inr ⟨Y, by simp, hY⟩

/-- An occurrence inside an append lies in the left part, in the right part,
or straddles the boundary (a nonempty suffix of the left part followed by a
nonempty prefix of the right part). -/
theorem sub_append_cases {α : Type} {X A B : List α} (h : X <:+: A ++ B) :
    X <:+: A ∨ X <:+: B
      ∨ ∃ X₁ X₂, X = X₁ ++ X₂ ∧ X₁ ≠ [] ∧ X₂ ≠ [] ∧ X₁ <:+ A ∧ X₂ <+: B := by
  induction A with
  | nil => exact Or.inr (Or.inl (by simpa using h))
  | cons a A ih =>
    rw [List.cons_append, List.infix_cons_iff] at h
    rcases h with h | h
    · rcases pre_append_cases (show X <+: (a :: A) ++ B from h) with h' | ⟨Y, rfl, hY⟩
      · exact Or.inl h'.isInfix
      · rcases eq_or_ne Y [] with rfl | hne
        · exact Or.inl (by simp)
        · exact Or.inr (Or.inr ⟨a :: A, Y, rfl, by simp, hne, List.suffix_rfl, hY⟩)
    · rcases ih h with h' | h' | ⟨X₁, X₂, rfl, h1, h2, hs, hp⟩
      · obtain ⟨s, t, hst⟩ := h'
        exact Or.inl ⟨a :: s, t, by simp [hst]⟩
      · exact Or.inr (Or.inl h')
      · refine Or.inr (Or.inr ⟨X₁, X₂, rfl, h1, h2, ?_, hp⟩)
        obtain ⟨s, hsA⟩ := hs
        exact ⟨a :: s, by simp [hsA]⟩

/-- If a nonempty pattern shares no element with the nonempty separator `T`,
an occurrence in `A ++ T ++ B` lies entirely in `A` or entirely in `B`. -/
theorem sub_append_sep {α : Type} {X A T B : List α} (h : X <:+: A ++ T ++ B)
    (hX : X ≠ []) (hT : T ≠ []) (hd : ∀ c ∈ X, c ∉ T) : X <:+: A ∨ X <:+: B := by
  have h' : X <:+: A ++ (T ++ B) := by simpa [List.append_assoc] using h
  rcases sub_append_cases h' with hA | hTB | ⟨X₁, X₂, hXeq, h1, h2, hs, hp⟩
  · exact Or.inl hA
  · rcases sub_append_cases hTB with hT' | hB | ⟨X₁, X₂, hXeq, h1, h2, hs, hp⟩
    · obtain ⟨c, hc⟩ := List.exists_mem_of_ne_nil _ hX
      exact absurd (hT'.subset hc) (hd c hc)
    · exact Or.inr hB
    · obtain ⟨c, hc⟩ := List.exists_mem_of_ne_nil _ h1
      refine absurd (hs.subset hc) (hd c ?_)
      rw [hXeq]
      exact List.mem_append_left _ hc
  · cases X₂ with
    | nil => exact absurd rfl h2
    | cons c X₂ =>
      cases T with
      | nil => exact absurd rfl hT
      | cons t T =>
        rw [List.cons_append, List.cons_prefix_cons] at hp
        obtain ⟨rfl, -⟩ := hp
        have hcX : c ∈ X := by
          rw [hXeq]
          exact List.mem_append_right _ (List.mem_cons_self _ _)
        exact absurd (List.mem_cons_self _ _) (hd c hcX)

/-- An occurrence of a pattern without digit-like characters in a built prompt
lies entirely before or entirely after the tempo slot. -/
theorem containsStr_promptText (ms t lg X : String)
    (hT : t.data ≠ []) (hTc : ∀ c ∈ t.data, tempoCharB c = true)
    (hX : X.data ≠ []) (hXc : ∀ c ∈ X.data, tempoCharB c = false) :
    containsStr (promptText ms t lg) X
      = (containsStr (promptSegA0 ++ ms ++ promptSegA1) X
          || containsStr (promptSegA2 ++ lg ++ promptSegA3) X) := by
  have hsplit : (promptText ms t lg).data
      = ((promptSegA0 ++ ms ++ promptSegA1).data ++ t.data)
          ++ (promptSegA2 ++ lg ++ promptSegA3).data := by
    simp [promptText, String.data_append, List.append_assoc]
  rw [Bool.eq_iff_iff]
  simp only [containsStr, Bool.or_eq_true, decide_eq_true_eq, hsplit]
  constructor
  · intro h
    refine sub_append_sep h hX hT ?_
    intro c hc hcT
    have h1 := hXc c hc
    have h2 := hTc c hcT
    rw [h1] at h2
    exact absurd h2 (by decide)
  · rintro (h | h)
    · obtain ⟨s, u, hsu⟩ := h
      exact ⟨s, u ++ t.data ++ (promptSegA2 ++ lg ++ promptSegA3).data,
        by simp [← hsu, List.append_assoc]⟩
    · obtain ⟨s, u, hsu⟩ := h
      exact ⟨((promptSegA0 ++ ms ++ promptSegA1).data ++ t.data) ++ s, u,
        by simp [← hsu, List.append_assoc]⟩

/-- The tempo string itself always occurs in the built prompt. -/
theorem containsStr_tempoSlot (ms t lg : String) :
    containsStr (promptText ms t lg) t = true := by
  simp only [containsStr, decide_eq_true_eq, promptText]
  exact ⟨(promptSegA0 ++ ms ++ promptSegA1).data, (promptSegA2 ++ lg ++ promptSegA3).data,
    by simp [String.data_append, List.append_assoc]⟩

theorem contains_phSoft (ms lg : String) (q : ℚ) :
    containsStr (promptText ms (formatTempo (.fin q)) lg) "soft ambient light"
      = (containsStr (promptSegA0 ++ ms ++ promptSegA1) "soft ambient light"
          || containsStr (promptSegA2 ++ lg ++ promptSegA3) "soft ambient light") :=
  containsStr_promptText ms _ lg _ (formatTempo_ne q) (formatTempo_tempo q)
    (by decide) (by decide)

theorem contains_phBalanced (ms lg : String) (q : ℚ) :
    containsStr (promptText ms (formatTempo (.fin q)) lg) "cinematic balanced lighting"
      = (containsStr (promptSegA0 ++ ms ++ promptSegA1) "cinematic balanced lighting"
          || containsStr (promptSegA2 ++ lg ++ promptSegA3) "cinematic balanced lighting") :=
  containsStr_promptText ms _ lg _ (formatTempo_ne q) (formatTempo_tempo q)
    (by decide) (by decide)

theorem contains_phDramatic (ms lg : String) (q : ℚ) :
    containsStr (promptText ms (formatTempo (.fin q)) lg) "dramatic volumetric lighting"
      = (containsStr (promptSegA0 ++ ms ++ promptSegA1) "dramatic volumetric lighting"
          || containsStr (promptSegA2 ++ lg ++ promptSegA3) "dramatic volumetric lighting") :=
  containsStr_promptText ms _ lg _ (formatTempo_ne q) (formatTempo_tempo q)
    (by decide) (by decide)

theorem contains_phWarm (ms lg : String) (q : ℚ) :
    containsStr (promptText ms (formatTempo (.fin q)) lg)
        "warm sunset tones, soft glow, peaceful atmosphere"
      = (containsStr (promptSegA0 ++ ms ++ promptSegA1)
            "warm sunset tones, soft glow, peaceful atmosphere"
          || containsStr (promptSegA2 ++ lg ++ promptSegA3)
            "warm sunset tones, soft glow, peaceful atmosphere") :=
  containsStr_promptText ms _ lg _ (formatTempo_ne q) (formatTempo_tempo q)
    (by decide) (by decide)

theorem contains_phMoody (ms lg : String) (q : ℚ) :
    containsStr (promptText ms (formatTempo (.fin q)) lg) "moody shadows, deep contrast"
      = (containsStr (promptSegA0 ++ ms ++ promptSegA1) "moody shadows, deep contrast"
          || containsStr (promptSegA2 ++ lg ++ promptSegA3) "moody shadows, deep contrast") :=
  containsStr_promptText ms _ lg _ (formatTempo_ne q) (formatTempo_tempo q)
    (by decide) (by decide)

theorem contains_phVibrant (ms lg : String) (q : ℚ) :
    containsStr (promptText ms (formatTempo (.fin q)) lg) "vibrant colors, hopeful sky"
      = (containsStr (promptSegA0 ++ ms ++ promptSegA1) "vibrant colors, hopeful sky"
          || containsStr (promptSegA2 ++ lg ++ promptSegA3) "vibrant colors, hopeful sky") :=
  containsStr_promptText ms _ lg _ (formatTempo_ne q) (formatTempo_tempo q)
    (by decide) (by decide)

theorem contains_phFallback (ms lg : String) (q : ℚ) :
    containsStr (promptText ms (formatTempo (.fin q)) lg) "cinematic lighting"
      = (containsStr (promptSegA0 ++ ms ++ promptSegA1) "cinematic lighting"
          || containsStr (promptSegA2 ++ lg ++ promptSegA3) "cinematic lighting") :=
  containsStr_promptText ms _ lg _ (formatTempo_ne q) (formatTempo_tempo q)
    (by decide) (by decide)

/-- The spec's end-to-end scenario 2 feature vector:
rms 0.08, harmonicEnergy 0.1, percussiveEnergy 0.5, centroid 1000,
contrast 30, zcr 0.15, tempo 140.0. -/
def scenario2 : RawFeatures :=
  ⟨.fin 140, .fin (mkRat 8 100), .fin (mkRat 1 10), .fin (mkRat 1 2), .fin 1000, .fin 30, .fin (mkRat 15 100)⟩

/-- C2 counterexample: the mood dict of `build_prompt` enumerates only three
phrases, so for the classifier-produced mood `tense / aggressive` the prompt
carries the fallback phrase `cinematic lighting` and none of the enumerated
mood phrases — refuting the claim that the fallback appears only for moods
outside the four-label set. -/
theorem build_prompt_fallback_cex :
    classifyMood (.fin (mkRat 1 10)) (.fin (mkRat 1 2)) (.fin 1000) (.fin 30) (.fin (mkRat 15 100))
      = "tense / aggressive"
    ∧ "tense / aggressive" ∈ moodLabels
    ∧ (build_prompt (analyze_audio scenario2)).isSome = true
    ∧ containsStr ((build_prompt (analyze_audio scenario2)).getD "") "cinematic lighting" = true
    ∧ containsStr ((build_prompt (analyze_audio scenario2)).getD "")
        "warm sunset tones, soft glow, peaceful atmosphere" = false
    ∧ containsStr ((build_prompt (analyze_audio scenario2)).getD "")
        "moody shadows, deep contrast" = false
    ∧ containsStr ((build_prompt (analyze_audio scenario2)).getD "")
        "vibrant colors, hopeful sky" = false := by
  decide

/-- C2 (amended): for every energy label, classifier mood label and finite
tempo, `build_prompt` succeeds and the prompt contains the rendered tempo
value and exactly the lighting phrase selected by the energy label (the other
two lighting phrases are absent); the atmosphere slot carries the enumerated
phrase of the mood for the three moods in the mood dict, and the fallback
phrase `cinematic lighting` exactly when the mood is `tense / aggressive`,
a mood the classifier does produce. -/
theorem build_prompt_slot_phrases (e m : String) (he : e ∈ energyLabels)
    (hm : m ∈ moodLabels) (q : ℚ) (r c : FVal) :
    ∃ p, build_prompt (labelsDict e m (.fin q) r c) = some p
      ∧ containsStr p (formatTempo (.fin q)) = true
      ∧ containsStr p "soft ambient light" = (e == "low")
      ∧ containsStr p "cinematic balanced lighting" = (e == "medium")
      ∧ containsStr p "dramatic volumetric lighting" = (e == "high")
      ∧ containsStr p "warm sunset tones, soft glow, peaceful atmosphere"
          = (m == "emotional / warm")
      ∧ containsStr p "moody shadows, deep contrast" = (m == "dark / cinematic")
      ∧ containsStr p "vibrant colors, hopeful sky" = (m == "bright / uplifting")
      ∧ containsStr p "cinematic lighting" = (m == "tense / aggressive") := by
  simp only [energyLabels, moodLabels, List.mem_cons, List.not_mem_nil, or_false] at he hm
  rcases he with rfl | rfl | rfl <;> rcases hm with rfl | rfl | rfl | rfl <;>
    exact ⟨_, rfl, containsStr_tempoSlot _ _ _,
      by rw [contains_phSoft]; decide, by rw [contains_phBalanced]; decide,
      by rw [contains_phDramatic]; decide, by rw [contains_phWarm]; decide,
      by rw [contains_phMoody]; decide, by rw [contains_phVibrant]; decide,
      by rw [contains_phFallback]; decide⟩

/-- C2 witness: the slot-phrase theorem at energy `high`, mood
`tense / aggressive` and tempo 140. -/
theorem build_prompt_slot_phrases_witness :
    ("high" ∈ energyLabels ∧ "tense / aggressive" ∈ moodLabels)
    ∧ (∃ p, build_prompt
          (labelsDict "high" "tense / aggressive" (.fin 140) (.fin (mkRat 8 100)) (.fin 1000))
          = some p
        ∧ containsStr p (formatTempo (.fin 140)) = true
        ∧ containsStr p "soft ambient light" = ("high" == "low")
        ∧ containsStr p "cinematic balanced lighting" = ("high" == "medium")
        ∧ containsStr p "dramatic volumetric lighting" = ("high" == "high")
        ∧ containsStr p "warm sunset tones, soft glow, peaceful atmosphere"
            = ("tense / aggressive" == "emotional / warm")
        ∧ containsStr p "moody shadows, deep contrast"
            = ("tense / aggressive" == "dark / cinematic")
        ∧ containsStr p "vibrant colors, hopeful sky"
            = ("tense / aggressive" == "bright / uplifting")
        ∧ containsStr p "cinematic lighting"
            = ("tense / aggressive" == "tense / aggressive")) :=
  ⟨⟨by decide, by decide⟩,
   build_prompt_slot_phrases "high" "tense / aggressive" (by decide) (by decide)
     140 (.fin (mkRat 8 100)) (.fin 1000)⟩

/-- C8: the lighting mapping of `build_prompt` is total over the three energy
labels `low`, `medium`, `high`, and for any energy value outside those three
the dict subscript raises a `KeyError` (modelled as `none`) rather than
silently substituting a default phrase. -/
theorem lighting_total_or_raises :
    (∀ m tempo r c, build_prompt (labelsDict "low" m tempo r c)
        = some (promptText (moodStyleTable m) (formatTempo tempo) "soft ambient light"))
    ∧ (∀ m tempo r c, build_prompt (labelsDict "medium" m tempo r c)
        = some (promptText (moodStyleTable m) (formatTempo tempo) "cinematic balanced lighting"))
    ∧ (∀ m tempo r c, build_prompt (labelsDict "high" m tempo r c)
        = some (promptText (moodStyleTable m) (formatTempo tempo) "dramatic volumetric lighting"))
    ∧ (∀ e, e ∉ energyLabels →
        ∀ m tempo r c, build_prompt (labelsDict e m tempo r c) = none) := by
  refine ⟨fun m t r c => rfl, fun m t r c => rfl, fun m t r c => rfl, ?_⟩
  intro e he m t r c
  have hlt : lightingTable e = none := by
    unfold lightingTable
    split_ifs with h1 h2 h3
    · exact absurd (by simp [energyLabels, h1]) he
    · exact absurd (by simp [energyLabels, h2]) he
    · exact absurd (by simp [energyLabels, h3]) he
    · rfl
  show (match lightingTable e with
    | some lighting => some (promptText (moodStyleTable m) (formatTempo t) lighting)
    | none => none) = none
  rw [hlt]

/-- C8 witness: an energy value outside the enumeration raises. -/
theorem lighting_total_or_raises_witness :
    ("extreme" ∉ energyLabels)
    ∧ build_prompt (labelsDict "extreme" "dark / cinematic" (.fin 100) (.fin 0) (.fin 0))
      = none :=
  ⟨by decide,
   lighting_total_or_raises.2.2.2 "extreme" (by decide) "dark / cinematic"
     (.fin 100) (.fin 0) (.fin 0)⟩

/-- The spec's end-to-end scenario 1 feature vector:
rms 0.02, harmonicEnergy 0.5, percussiveEnergy 0.1, centroid 1500,
contrast 10, zcr 0.02, tempo 90.0. -/
def scenario1 : RawFeatures :=
  ⟨.fin 90, .fin (mkRat 2 100), .fin (mkRat 1 2), .fin (mkRat 1 10), .fin 1500,
   .fin 10, .fin (mkRat 2 100)⟩

/-- C9: on the scenario-1 feature vector the classifier yields `low` and
`emotional / warm`, and the synthesized prompt contains `soft ambient light`,
`warm sunset tones` and `90.0 BPM`. -/
theorem scenario1_end_to_end :
    classifyEnergy (.fin (mkRat 2 100)) (.fin (mkRat 1 10)) (.fin (mkRat 1 2)) = "low"
    ∧ classifyMood (.fin (mkRat 1 2)) (.fin (mkRat 1 10)) (.fin 1500) (.fin 10)
        (.fin (mkRat 2 100)) = "emotional / warm"
    ∧ (analyze_audio scenario1).lookup "energy" = some (.str "low")
    ∧ (analyze_audio scenario1).lookup "mood" = some (.str "emotional / warm")
    ∧ (build_prompt (analyze_audio scenario1)).isSome = true
    ∧ containsStr ((build_prompt (analyze_audio scenario1)).getD "") "soft ambient light" = true
    ∧ containsStr ((build_prompt (analyze_audio scenario1)).getD "") "warm sunset tones" = true
    ∧ containsStr ((build_prompt (analyze_audio scenario1)).getD "") "90.0 BPM" = true := by
  decide

/-- Stage oracles for one `/generate` request: the outcomes of the external
calls the pipeline makes, in order — `s3.download_fileobj`, the librosa
feature computations inside `analyze_audio`, the Bedrock call in
`generate_image`, and `upload_image_to_s3` (which returns a presigned URL). -/
structure GenEnv where
  fetchRes : Except String Unit
  librosaRes : Except String RawFeatures
  generateRes : Except String (List ℕ)
  uploadRes : Except String String

/-- The HTTP-level outcome of `generate_visual`: the success JSON
(features dict, prompt, image URL) or an `HTTPException` status and detail. -/
inductive GenResponse where
  | success : List (String × PyVal) → String → String → GenResponse
  | httpError : ℕ → String → GenResponse
deriving DecidableEq

/-- Observable side effects of one `/generate` request: whether the image
generator was called, whether `os.remove` ran on the temp file, and whether
the upload to the cover bucket was attempted. -/
structure GenTrace where
  generateCalled : Bool
  removedTmp : Bool
  uploadCalled : Bool
deriving DecidableEq

/-- `generate_visual` (levitate.py lines 206-238): download to a
`NamedTemporaryFile(delete=False)`, analyze, build the prompt, generate the
image, `os.remove(tmp_path)`, upload and return; any exception at any stage
is caught by the single `except` and re-raised as `HTTPException(500, str(e))`.
The temp file is removed only on the path that passes image generation. -/
def generate_visual (env : GenEnv) : GenResponse × GenTrace :=
  match env.fetchRes with
  | .error e => (.httpError 500 e, ⟨false, false, false⟩)
  | .ok _ =>
    match env.librosaRes with
    | .error e => (.httpError 500 e, ⟨false, false, false⟩)
    | .ok raw =>
      let features := analyze_audio raw
      match build_prompt features with
      | none => (.httpError 500 "KeyError", ⟨false, false, false⟩)
      | some prompt =>
        match env.generateRes with
        | .error e => (.httpError 500 e, ⟨true, false, false⟩)
        | .ok _ =>
          match env.uploadRes with
          | .error e => (.httpError 500 e, ⟨true, true, false⟩)
          | .ok url => (.success features prompt url, ⟨true, true, true⟩)

theorem build_prompt_analyze_isSome (raw : RawFeatures) :
    (build_prompt (analyze_audio raw)).isSome = true := by
  have h := classifyEnergy_mem raw.rms raw.percussive_energy raw.harmonic_energy
  simp only [energyLabels, List.mem_cons, List.not_mem_nil, or_false] at h
  show (match lightingTable
        (classifyEnergy raw.rms raw.percussive_energy raw.harmonic_energy) with
    | some lighting =>
        some (promptText
          (moodStyleTable (classifyMood raw.harmonic_energy raw.percussive_energy
            raw.centroid raw.contrast raw.zcr))
          (formatTempo (round1 raw.tempo)) lighting)
    | none => none).isSome = true
  rcases h with h | h | h <;> rw [h] <;> rfl

/-- The features dict on a failing-analysis request: a request whose librosa
stage raises leaves the temp file in place. -/
def envAnalyzeFail : GenEnv :=
  ⟨.ok (), .error "DecodeError: empty audio", .ok [], .ok "https://covers/u.png"⟩

/-- C5 counterexample: a request that fails during the Analyzing stage
terminates with HTTP 500 but never runs `os.remove` on the request's temp
file — the cleanup sits between generation and upload, outside any
`finally`, so failing exit paths do not delete the file. -/
theorem temp_file_leak_cex :
    (generate_visual envAnalyzeFail).2.removedTmp = false
    ∧ (generate_visual envAnalyzeFail).1 = .httpError 500 "DecodeError: empty audio" := by
  decide

/-- C5 (amended): the temp file is deleted exactly on requests where the
fetch, analysis and generation stages all succeed — in particular it is
already deleted before the upload stage, so an upload failure still leaves it
deleted, while a failure at fetch, analysis or generation leaks it. -/
theorem temp_file_removed_iff (env : GenEnv) :
    (generate_visual env).2.removedTmp
      = (env.fetchRes.isOk && env.librosaRes.isOk && env.generateRes.isOk) := by
  obtain ⟨f, l, g, u⟩ := env
  cases f with
  | error e => rfl
  | ok uv =>
    cases l with
    | error e => rfl
    | ok raw =>
      obtain ⟨p, hp⟩ := Option.isSome_iff_exists.mp (build_prompt_analyze_isSome raw)
      cases g with
      | error e => simp [generate_visual, Except.isOk, Except.toBool, hp]
      | ok img =>
        cases u with
        | error e => simp [generate_visual, Except.isOk, Except.toBool, hp]
        | ok url => simp [generate_visual, Except.isOk, Except.toBool, hp]

/-- C6: when the Generating stage raises, the pipeline never reaches the
Uploading stage (no store call, no presigned URL), the temp file is not
removed, and the request terminates as HTTP 500 carrying the underlying
error's string — not a partial success result. -/
theorem generate_failure_skips_upload (raw : RawFeatures) (e : String)
    (u : Except String String) :
    generate_visual ⟨.ok (), .ok raw, .error e, u⟩
      = (.httpError 500 e, ⟨true, false, false⟩) := by
  obtain ⟨p, hp⟩ := Option.isSome_iff_exists.mp (build_prompt_analyze_isSome raw)
  simp [generate_visual, hp]

/-- C4 counterexample: the dict `analyze_audio` returns (and `/generate`
passes back to the caller) has exactly the five keys `tempo`, `energy`,
`mood`, `rms`, `centroid` — the harmonic/percussive energies, the spectral
contrast and the zero-crossing rate are absent under the spec's names and
under the code's own variable names, so the returned FeatureVector does not
carry all seven descriptors. -/
theorem feature_vector_keys_cex :
    (analyze_audio scenario1).map Prod.fst = ["tempo", "energy", "mood", "rms", "centroid"]
    ∧ (analyze_audio scenario1).lookup "harmonicEnergy" = none
    ∧ (analyze_audio scenario1).lookup "percussiveEnergy" = none
    ∧ (analyze_audio scenario1).lookup "spectralContrast" = none
    ∧ (analyze_audio scenario1).lookup "zeroCrossingRate" = none
    ∧ (analyze_audio scenario1).lookup "harmonic_energy" = none
    ∧ (analyze_audio scenario1).lookup "percussive_energy" = none
    ∧ (analyze_audio scenario1).lookup "contrast" = none
    ∧ (analyze_audio scenario1).lookup "zcr" = none := by
  decide

/-- C4 (amended): for every analyzed input the extractor returns, and a fully
successful `/generate` request passes back to the caller, a features dict
with exactly the keys `tempo` (rounded to one decimal), `energy`, `mood`,
`rms` and `centroid`; harmonic/percussive energy, spectral contrast and
zero-crossing rate are computed and used for classification but not included. -/
theorem features_returned (raw : RawFeatures) (img : List ℕ) (url : String) :
    (analyze_audio raw).map Prod.fst = ["tempo", "energy", "mood", "rms", "centroid"]
    ∧ (analyze_audio raw).lookup "tempo" = some (.num (round1 raw.tempo))
    ∧ (analyze_audio raw).lookup "energy"
        = some (.str (classifyEnergy raw.rms raw.percussive_energy raw.harmonic_energy))
    ∧ (analyze_audio raw).lookup "mood"
        = some (.str (classifyMood raw.harmonic_energy raw.percussive_energy
            raw.centroid raw.contrast raw.zcr))
    ∧ (analyze_audio raw).lookup "rms" = some (.num raw.rms)
    ∧ (analyze_audio raw).lookup "centroid" = some (.num raw.centroid)
    ∧ (analyze_audio raw).lookup "harmonic_energy" = none
    ∧ (analyze_audio raw).lookup "percussive_energy" = none
    ∧ (analyze_audio raw).lookup "contrast" = none
    ∧ (analyze_audio raw).lookup "zcr" = none
    ∧ ∃ p, build_prompt (analyze_audio raw) = some p
        ∧ generate_visual ⟨.ok (), .ok raw, .ok img, .ok url⟩
            = (.success (analyze_audio raw) p url, ⟨true, true, true⟩) := by
  obtain ⟨p, hp⟩ := Option.isSome_iff_exists.mp (build_prompt_analyze_isSome raw)
  refine ⟨rfl, rfl, rfl, rfl, rfl, rfl, rfl, rfl, rfl, rfl, p, hp, ?_⟩
  simp [generate_visual, hp]

/-- The upload size cap (levitate.py line 176): `5 * 1024 * 1024` bytes. -/
def MAX_FILE_SIZE : ℕ := 5 * 1024 * 1024

/-- Outcome of one `/upload` request: the HTTP response (`ok` carries the
`status`/`s3_key` fields of the success JSON, `error` a status code and
detail) and whether `s3.upload_fileobj` was reached. -/
structure UploadOutcome where
  response : Except (ℕ × String) (String × String)
  storeCalled : Bool

/-- Python's `f"{q:.2f}"` on a non-negative rational: round to two decimal
places (ties to even) and print with exactly two digits. -/
def format2dp (q : ℚ) : String :=
  let n : ℤ := rheScaled (100 * q.num) q.den
  natStr (n / 100).toNat ++ "." ++ (if n % 100 < 10 then "0" else "") ++ natStr (n % 100).toNat

/-- `upload_mp3` (levitate.py lines 178-203): reject a filename whose
lowercase form does not end in `.mp3` with HTTP 400; read the body, reject a
size above `MAX_FILE_SIZE` with HTTP 400 (detail carries the size in MB to
two decimals); otherwise call `s3.upload_fileobj` and answer
`{"status": "uploaded", "s3_key": filename}`, mapping a storage failure to
HTTP 500 with the error's string. -/
def upload_mp3 (filename : String) (size : ℕ) (storeRes : Except String Unit) : UploadOutcome :=
  if ¬ (".mp3".data <:+ filename.data.map Char.toLower) then
    ⟨.error (400, "Only .mp3 files are supported"), false⟩
  else if size > MAX_FILE_SIZE then
    ⟨.error (400, "File too large. Maximum size is 5MB, got "
        ++ format2dp (mkRat size (1024 * 1024)) ++ "MB"), false⟩
  else
    match storeRes with
    | .ok _ => ⟨.ok ("uploaded", filename), true⟩
    | .error e => ⟨.error (500, e), true⟩

/-- C7: an upload whose size exceeds the 5 MiB cap or whose extension does
not indicate mp3 is rejected with an HTTP 400 validation error, and the
storage service is never contacted on that path. -/
theorem upload_rejects_invalid (filename : String) (size : ℕ) (st : Except String Unit)
    (h : ¬ (".mp3".data <:+ filename.data.map Char.toLower) ∨ size > MAX_FILE_SIZE) :
    (∃ d, (upload_mp3 filename size st).response = .error (400, d))
    ∧ (upload_mp3 filename size st).storeCalled = false := by
  unfold upload_mp3
  rcases h with h | h
  · rw [if_pos h]
    exact ⟨⟨_, rfl⟩, rfl⟩
  · by_cases hx : ¬ (".mp3".data <:+ filename.data.map Char.toLower)
    · rw [if_pos hx]
      exact ⟨⟨_, rfl⟩, rfl⟩
    · rw [if_neg hx, if_pos h]
      exact ⟨⟨_, rfl⟩, rfl⟩

/-- C7 witness: a 6 MiB `.mp3` upload is rejected without any store call. -/
theorem upload_rejects_invalid_witness :
    ((6 * 1024 * 1024 : ℕ) > MAX_FILE_SIZE)
    ∧ ((∃ d, (upload_mp3 "song.mp3" (6 * 1024 * 1024) (.ok ())).response = .error (400, d))
        ∧ (upload_mp3 "song.mp3" (6 * 1024 * 1024) (.ok ())).storeCalled = false) :=
  ⟨by decide,
   upload_rejects_invalid "song.mp3" (6 * 1024 * 1024) (.ok ()) (Or.inr (by decide))⟩
